import Mathlib

/-!
Shallow embedding of the Fitbit fetcher (`Fitbit_Fetch.py`).

The script polls the Fitbit web API, converts the JSON payloads into
time-series points, buffers them, and flushes the buffer to InfluxDB.
We embed the pieces the verification targets: the retry loop of
`fitbit_data_request`, the token store (`get_access_token` /
`refresh_fitbit_token`), the point buffer flush (`write_points`), the
date-range partitioner (`yield_dates_with_gap`), and the metric handlers
that append points (`get_battery_level`, `get_intraday_data_limit_1d`,
`get_daily_data_limit_30d`, `fetch_latest_activities`).

Modelling conventions:
* Python exceptions are `Except PyExc`; a Python function that can raise
  returns `Except PyExc _`, and an uncaught exception is `.error _`.
* Naive `datetime` values are integers (seconds counted as if the wall
  time were UTC); a timezone is a fixed UTC offset in seconds.
  `tz.localize(naive).astimezone(pytz.utc)` subtracts the offset.
* HTTP traffic is scripted: attempt `i` of the retry loop observes
  `script i`, which is either a response (status, Retry-After, body) or
  a `requests` connection error.  `get_access_token` is scripted as the
  function `tokens`: a call made while issuing attempt `i` returns
  `tokens i`.
* `time.sleep` calls are accumulated into a running total of seconds.
-/

/-- Retry-loop bound of `fitbit_data_request` (`MAX_RETRIES = 3`). -/
def MAX_RETRIES : Nat := 3

/-- Declared-but-unused constant from the source (`EXPIRED_TOKEN_MAX_RETRY = 5`). -/
def EXPIRED_TOKEN_MAX_RETRY : Nat := 5

/-- A Python exception that can escape the embedded functions. -/
inductive PyExc where
  /-- `requests.Response.raise_for_status` on a 4xx/5xx status. -/
  | httpError (status : Nat)
  /-- a local variable referenced before assignment (`UnboundLocalError`). -/
  | unboundLocal
  /-- e.g. subscripting `None` (`None[0]`). -/
  | typeError
  /-- e.g. calling `.get` on `None`. -/
  | attributeError
  /-- subscripting an empty list (`[][0]`). -/
  | indexError
deriving Repr, DecidableEq

/-- The scripted outcome of one HTTP attempt inside `fitbit_data_request`:
either a response with a status code, a `Retry-After` value and a parsed
JSON body of type `β`, or a connection error raised by `requests`. -/
inductive Attempt (β : Type) where
  | resp (status : Nat) (retryAfter : Nat) (body : β)
  | connError
deriving Repr, DecidableEq

/-- Everything observable about one call of `fitbit_data_request`:
its returned value (or escaped exception), the total seconds slept, and
the Authorization token used by each attempt that was issued. -/
structure FdrOut (β : Type) where
  result : Except PyExc (Option β)
  totalSleep : Nat
  tokensUsed : List String
deriving Repr

/-- The `while retry_attempts < MAX_RETRIES` loop of `fitbit_data_request`.
`fuel = MAX_RETRIES - retry_attempts` (the loop body runs for
`retry_attempts = 0, 1, 2`), `attempt` is the current attempt number,
`headersCur` is the current value of the `headers` local (`none` models the
falsy default `{}`; `some tok` a built/caller-supplied header dict whose
Authorization value is `tok`), `respBound` records whether the `response`
local has ever been assigned, `sleepAcc` the seconds slept so far and
`used` the Authorization values used so far.

Each iteration mirrors the source line by line: `headers = headers or
{"Authorization": f"Bearer {self.get_access_token()}", ...}` (so a fresh
token is obtained only while `headers` is still falsy), then the request,
then the status dispatch (200 return / 429 sleep `Retry-After + 15` /
401 sleep 30 / `[500, 502, 503, 504]` sleep 120 / otherwise
`raise_for_status()` then a bare `return`), with `ConnectionError` caught
and logged, and finally `retry_attempts += 1; time.sleep(30)`.  When the
loop exhausts, the source logs `response.text`: if no response was ever
bound (every attempt raised `ConnectionError`) this raises
`UnboundLocalError`; otherwise the function falls off the end and
returns `None`. -/
def fdr_go {β : Type} (script : Nat → Attempt β) (tokens : Nat → String) :
    Nat → Nat → Option String → Bool → Nat → List String → FdrOut β
  | 0, _attempt, _headersCur, respBound, sleepAcc, used =>
      if respBound then ⟨.ok none, sleepAcc, used⟩
      else ⟨.error .unboundLocal, sleepAcc, used⟩
  | fuel + 1, attempt, headersCur, respBound, sleepAcc, used =>
      let tok := match headersCur with
        | some t => t
        | none => tokens attempt
      match script attempt with
      | .connError =>
          fdr_go script tokens fuel (attempt + 1) (some tok) respBound
            (sleepAcc + 30) (used ++ [tok])
      | .resp status retryAfter body =>
          if status = 200 then ⟨.ok (some body), sleepAcc, used ++ [tok]⟩
          else if status = 429 then
            fdr_go script tokens fuel (attempt + 1) (some tok) true
              (sleepAcc + (retryAfter + 15) + 30) (used ++ [tok])
          else if status = 401 then
            fdr_go script tokens fuel (attempt + 1) (some tok) true
              (sleepAcc + 30 + 30) (used ++ [tok])
          else if status ∈ ([500, 502, 503, 504] : List Nat) then
            fdr_go script tokens fuel (attempt + 1) (some tok) true
              (sleepAcc + 120 + 30) (used ++ [tok])
          else if 400 ≤ status ∧ status < 600 then
            ⟨.error (.httpError status), sleepAcc, used ++ [tok]⟩
          else
            ⟨.ok none, sleepAcc, used ++ [tok]⟩

/-- `fitbit_data_request(endpoint, headers={}, ...)`: run the retry loop
from attempt 0.  `headers = none` models a call with the falsy default
`{}`; `headers = some tok` a caller-supplied header dict. -/
def fitbit_data_request {β : Type} (script : Nat → Attempt β) (tokens : Nat → String)
    (headers : Option String) : FdrOut β :=
  fdr_go script tokens MAX_RETRIES 0 headers false 0 []

/-- A scripted outcome the retry loop does not give up on: one of the
statuses 429 / 401 / 500 / 502 / 503 / 504, or a connection error. -/
def retryable {β : Type} : Attempt β → Bool
  | .connError => true
  | .resp s _ _ => s == 429 || s == 401 || s == 500 || s == 502 || s == 503 || s == 504

/-- Whether a scripted outcome is an HTTP response (which binds the
`response` local) rather than a connection error. -/
def isResp {β : Type} : Attempt β → Bool
  | .connError => false
  | .resp _ _ _ => true

/-- `true` when one of the `fuel` scripted outcomes starting at attempt
`attempt` is an HTTP response. -/
def anyRespIn {β : Type} (script : Nat → Attempt β) : Nat → Nat → Bool
  | _attempt, 0 => false
  | attempt, fuel + 1 => isResp (script attempt) || anyRespIn script (attempt + 1) fuel

/-- A script taking the first attempts from a list, with a default for
attempts beyond it. -/
def scriptOf {β : Type} (l : List (Attempt β)) (dflt : Attempt β) : Nat → Attempt β :=
  fun i => l.getD i dflt

/-- The persisted token file `{access_token, refresh_token,
expiry_timestamp}` (modelled with all three keys present). -/
structure TokenFile where
  access_token : String
  refresh_token : String
  expiry_timestamp : Int
deriving Repr, DecidableEq

/-- The body of a successful `oauth2/token` refresh exchange. -/
structure RefreshResponse where
  access_token : String
  refresh_token : String
  expires_in : Int
deriving Repr, DecidableEq

/-- `refresh_fitbit_token(refresh_token)`: the token POST is scripted as
the successful body `resp`; `now` is the value of `int(time.time())`
taken inside the function.  It computes `expiry_time = now +
resp.expires_in - 300`, writes the new token file, and returns
`(access_token, new_refresh_token)`.  The second component is the file
written to `TOKEN_FILE_PATH`. -/
def refresh_fitbit_token (refresh_token : String) (now : Int) (resp : RefreshResponse) :
    (String × String) × TokenFile :=
  let access_token := resp.access_token
  let new_refresh_token := resp.refresh_token
  let expiry_time := now + resp.expires_in - 300
  ((access_token, new_refresh_token),
   { access_token := access_token, refresh_token := new_refresh_token,
     expiry_timestamp := expiry_time })

/-- Everything observable about one call of `get_access_token`: the
returned token (or escaped exception), how many refresh exchanges were
performed, and the token file written by a refresh (if any). -/
structure GatOut where
  result : Except PyExc String
  refreshCalls : Nat
  written : Option TokenFile
deriving Repr

/-- `get_access_token()`.  `file` is the token file on disk (`none`:
`open` raises `FileNotFoundError`), `prompt` the refresh token typed at
the interactive prompt of the `except` branch, `now` the value of
`int(time.time())` in the expiry comparison and `rnow` the one sampled
inside `refresh_fitbit_token`; `resp` scripts the refresh exchange.

The three locals mirror the source: the `try` branch binds all three
from the parsed json, the `except FileNotFoundError` branch binds only
`refresh_token` (from the prompt).  `none` means the local was never
assigned, so reading it raises `UnboundLocalError`.  The body then runs
`if expiry_timestamp < int(time.time()): ... refresh ...` and finally
`return access_token`. -/
def get_access_token (file : Option TokenFile) (prompt : String) (now rnow : Int)
    (resp : RefreshResponse) : GatOut :=
  let access_token : Option String :=
    match file with | some tokens => some tokens.access_token | none => none
  let refresh_token : Option String :=
    match file with | some tokens => some tokens.refresh_token | none => some prompt
  let expiry_timestamp : Option Int :=
    match file with | some tokens => some tokens.expiry_timestamp | none => none
  match expiry_timestamp with
  | none => ⟨.error .unboundLocal, 0, none⟩
  | some e =>
      if e < now then
        match refresh_token with
        | none => ⟨.error .unboundLocal, 0, none⟩
        | some rt =>
            let r := refresh_fitbit_token rt rnow resp
            ⟨.ok r.1.1, 1, some r.2⟩
      else
        match access_token with
        | none => ⟨.error .unboundLocal, 0, none⟩
        | some a => ⟨.ok a, 0, none⟩

/-- A fixed-offset timezone: `offset` seconds east of UTC.  (`pytz`
timezones also carry DST rules; the claims at issue only concern which
timezone a handler consults, so a fixed offset suffices.) -/
structure Timezone where
  offset : Int
deriving Repr, DecidableEq

/-- `self.timezone.localize(naive).astimezone(pytz.utc)`: interpret a
naive local wall time in `tz` and convert it to UTC. -/
def tz_localize_to_utc (tz : Timezone) (naive : Int) : Int :=
  naive - tz.offset

/-- A timestamp as parsed by `datetime.fromisoformat`: the naive wall
time plus the UTC offset embedded in the string, when one is present.
(A trailing `Z` stripped by `.strip("Z")` leaves a naive timestamp.) -/
structure IsoTime where
  naive : Int
  utcOffset : Option Int
deriving Repr, DecidableEq

/-- `dt.astimezone(pytz.utc)` on a parsed timestamp: an aware datetime
converts by its embedded offset; a naive one is assumed to be in the
process's system timezone `systemTz` (not in `self.timezone`). -/
def astimezone_utc (systemTz : Timezone) (t : IsoTime) : Int :=
  match t.utcOffset with
  | some off => t.naive - off
  | none => t.naive - systemTz.offset

/-- An InfluxDB point as built by the handlers.  `noneFields` lists the
names of fields whose value is the Python `None`: the only such field in
the source is the `duration_seconds: None` of the final wake point
appended by the sleep handler. -/
structure Point where
  measurement : String
  time : Int
  tags : List (String × String)
  fields : List (String × Int)
  noneFields : List String := []
deriving Repr, DecidableEq

/-- The sink write failure caught by `write_points`
(`influxdb_client ... InfluxDBError`). -/
inductive InfluxDBErr where
  | writeFailed
deriving Repr, DecidableEq

/-- Everything observable about one call of `write_points`: the buffer
(`self.points`) after the call, the batches handed to
`write_api.write` (one entry per write call issued), and whether the
failure branch logged an error. -/
structure FlushOut where
  buffer : List Point
  writes : List (List Point)
  loggedError : Bool
deriving Repr, DecidableEq

/-- `write_points()`: if the buffer is non-empty, write the entire buffer
in one call; on success `self.points.clear()`, on `InfluxDBError` the
buffer is left intact and the error is logged.  The sink outcome is the
function `sink`.  The outer `Except` records that no exception escapes:
the only exception the write can raise in the model, `InfluxDBError`, is
caught. -/
def write_points (points : List Point) (sink : List Point → Except InfluxDBErr Unit) :
    Except PyExc FlushOut :=
  if 0 < points.length then
    match sink points with
    | .ok _ => .ok ⟨[], [points], false⟩
    | .error _ => .ok ⟨points, [points], true⟩
  else
    .ok ⟨points, [], false⟩

/-- One entry of the `devices.json` response used by
`get_battery_level`.  `lastSyncTime` is the naive parsed timestamp. -/
structure Device where
  lastSyncTime : Int
  batteryLevel : Int
deriving Repr, DecidableEq

/-- `get_battery_level()`.  `resp` is the value returned by
`fitbit_data_request` (`none` when the retries were exhausted); a list
entry of `none` is a JSON `null` device.  The source runs `device =
self.fitbit_data_request(...)[0]`, so an absent result raises
`TypeError` (`None` is not subscriptable) and an empty device list raises
`IndexError`, both before the `if device != None` check.  The boolean
records whether the success branch logged a recording. -/
def get_battery_level (tz : Timezone) (resp : Option (List (Option Device)))
    (points : List Point) : Except PyExc (List Point × Bool) :=
  match resp with
  | none => .error .typeError
  | some [] => .error .indexError
  | some (none :: _) => .ok (points, false)
  | some (some device :: _) =>
      .ok (points ++
        [{ measurement := "DeviceBatteryLevel",
           time := tz_localize_to_utc tz device.lastSyncTime,
           tags := [],
           fields := [("value", device.batteryLevel)] }], true)

/-- One entry of an intraday dataset: `time` is the seconds-into-the-day
of the `"time"` field, `value` the data value. -/
structure IntradayEntry where
  time : Int
  value : Int
deriving Repr, DecidableEq

/-- The body of one measurement of `get_intraday_data_limit_1d`.  `res`
is the value returned by `fitbit_data_request` (`none`: retries
exhausted, and `res.get(...)` raises `AttributeError`); the inner option
is `res.get(f"activities-...-intraday", {}).get("dataset")`.  A missing
or empty dataset is falsy, so it is logged and skipped.  `dateNaive` is
the midnight naive instant of `date_str`; the point time localizes
`f"{date_str}T{value.time}"` from the configured timezone to UTC. -/
def get_intraday_measurement (tz : Timezone) (dev : String) (measurementName : String)
    (dateNaive : Int) (res : Option (Option (List IntradayEntry)))
    (points : List Point) : Except PyExc (List Point × Bool) :=
  match res with
  | none => .error .attributeError
  | some dataOpt =>
      match dataOpt with
      | some (v :: vs) =>
          .ok (points ++ ((v :: vs).map fun value =>
            { measurement := measurementName,
              time := tz_localize_to_utc tz (dateNaive + value.time),
              tags := [("Device", dev)],
              fields := [("value", value.value)] }), true)
      | _ => .ok (points, false)

/-- `get_intraday_data_limit_1d(date_str, measurement_list)`: the loop
over the measurement list, pairing each measurement name with its
scripted response. -/
def get_intraday_data_limit_1d (tz : Timezone) (dev : String) (dateNaive : Int) :
    List (String × Option (Option (List IntradayEntry))) → List Point →
    Except PyExc (List Point)
  | [], points => .ok points
  | (mname, res) :: rest, points =>
      match get_intraday_measurement tz dev mname dateNaive res points with
      | .error e => .error e
      | .ok (pts, _) => get_intraday_data_limit_1d tz dev dateNaive rest pts

/-- One `hrv` entry; `dateTime` is the naive midnight instant parsed
from `f"{data['dateTime']}T00:00:00"`. -/
structure HrvEntry where
  dateTime : Int
  dailyRmssd : Int
  deepRmssd : Int
deriving Repr, DecidableEq

/-- One `br` entry. -/
structure BrEntry where
  dateTime : Int
  breathingRate : Int
deriving Repr, DecidableEq

/-- One `tempSkin` entry. -/
structure TempSkinEntry where
  dateTime : Int
  nightlyRelative : Int
deriving Repr, DecidableEq

/-- One minute record of the SPO2 intraday response. -/
structure Spo2Minute where
  minute : Int
  value : Int
deriving Repr, DecidableEq

/-- One day of the SPO2 intraday response. -/
structure Spo2Day where
  minutes : List Spo2Minute
deriving Repr, DecidableEq

/-- `get_daily_data_limit_30d(start_date, end_date)`.  The four
`fitbit_data_request` results are inputs; each outer `none` is an absent
result (retries exhausted).  The first three sections call `.get` on the
result, so an absent result raises `AttributeError`; the SPO2 section
only tests truthiness, so an absent result there is logged and skipped.
A present-but-falsy data list (inner `none` or `[]`) is logged and
skipped in every section. -/
def get_daily_data_limit_30d (tz : Timezone) (dev : String)
    (res_hrv : Option (Option (List HrvEntry)))
    (res_br : Option (Option (List BrEntry)))
    (res_skin : Option (Option (List TempSkinEntry)))
    (spo2_data_list : Option (List Spo2Day))
    (points : List Point) : Except PyExc (List Point) :=
  match res_hrv with
  | none => .error .attributeError
  | some hrv_data_list =>
      let points1 :=
        match hrv_data_list with
        | some (d :: ds) => points ++ ((d :: ds).map fun data =>
            ({ measurement := "HRV",
               time := tz_localize_to_utc tz data.dateTime,
               tags := [("Device", dev)],
               fields := [("dailyRmssd", data.dailyRmssd),
                          ("deepRmssd", data.deepRmssd)] } : Point))
        | _ => points
      match res_br with
      | none => .error .attributeError
      | some br_data_list =>
          let points2 :=
            match br_data_list with
            | some (d :: ds) => points1 ++ ((d :: ds).map fun data =>
                ({ measurement := "BreathingRate",
                   time := tz_localize_to_utc tz data.dateTime,
                   tags := [("Device", dev)],
                   fields := [("value", data.breathingRate)] } : Point))
            | _ => points1
          match res_skin with
          | none => .error .attributeError
          | some skin_temp_data_list =>
              let points3 :=
                match skin_temp_data_list with
                | some (d :: ds) => points2 ++ ((d :: ds).map fun temp_record =>
                    ({ measurement := "Skin Temperature Variation",
                       time := tz_localize_to_utc tz temp_record.dateTime,
                       tags := [("Device", dev)],
                       fields := [("RelativeValue", temp_record.nightlyRelative)] } : Point))
                | _ => points2
              let points4 :=
                match spo2_data_list with
                | some (d :: ds) => points3 ++ (((d :: ds).map fun days =>
                    days.minutes.map fun record =>
                      ({ measurement := "SPO2_Intraday",
                         time := tz_localize_to_utc tz record.minute,
                         tags := [("Device", dev)],
                         fields := [("value", record.value)] } : Point)).flatten)
                | _ => points3
              .ok points4

/-- A sleep stage level as returned by the sleep endpoint (the keys of
the source's `sleep_level_mapping` dict; levels outside this set would
raise `KeyError`, which the API contract rules out). -/
inductive SleepLevel where
  | wake
  | rem
  | light
  | deep
  | asleep
  | restless
  | awake
deriving Repr, DecidableEq

/-- The dict literal `sleep_level_mapping = {'wake': 3, 'rem': 2,
'light': 1, 'deep': 0, 'asleep': 1, 'restless': 2, 'awake': 3}`. -/
def sleep_level_mapping : SleepLevel → Int
  | .wake => 3
  | .rem => 2
  | .light => 1
  | .deep => 0
  | .asleep => 1
  | .restless => 2
  | .awake => 3

/-- One entry of `record['levels']['data']`; `dateTime` is the naive
parsed timestamp. -/
structure SleepStage where
  dateTime : Int
  level : SleepLevel
  seconds : Int
deriving Repr, DecidableEq

/-- The `record['levels']['summary']` shapes the sleep handler reads:
the `try` block reads the `light`/`rem`/`deep` minutes, and on a key
error the bare `except` falls back to `asleep`/`restless` with
`minutesDeep = 0`. -/
inductive SleepLevelsSummary where
  | stages (light rem deep : Int)
  | classic (asleep restless : Int)
deriving Repr, DecidableEq

/-- The `(minutesLight, minutesREM, minutesDeep)` triple computed by the
sleep handler's try/except block. -/
def sleep_summary_minutes : SleepLevelsSummary → Int × Int × Int
  | .stages light rem deep => (light, rem, deep)
  | .classic asleep restless => (asleep, restless, 0)

/-- One record of the `sleep` response list.  `startTime` and `endTime`
are naive parsed timestamps; `isMainSleep` is the Python boolean tag
value, modelled by its string form. -/
structure SleepRecord where
  startTime : Int
  endTime : Int
  isMainSleep : String
  efficiency : Int
  minutesAfterWakeup : Int
  minutesAsleep : Int
  minutesToFallAsleep : Int
  timeInBed : Int
  minutesAwake : Int
  summary : SleepLevelsSummary
  levelsData : List SleepStage
deriving Repr, DecidableEq

/-- `get_daily_data_limit_100d(start_date, end_date)` (sleep only).
`res_sleep` is the `fitbit_data_request` result (`none`: absent, and
`res_sleep.get("sleep")` raises `AttributeError`); the inner option is
the `sleep` list, logged and skipped when falsy.  For each record it
appends one "Sleep Summary" point at the localized `startTime`, one
"Sleep Levels" point per stage at the localized stage `dateTime`, and a
final wake "Sleep Levels" point at the localized `endTime` whose
`duration_seconds` field is the Python `None`.  Every timestamp is
localized from the configured timezone to UTC. -/
def get_daily_data_limit_100d (tz : Timezone) (dev : String)
    (res_sleep : Option (Option (List SleepRecord))) (points : List Point) :
    Except PyExc (List Point) :=
  match res_sleep with
  | none => .error .attributeError
  | some sleep_data =>
      match sleep_data with
      | some (r :: rs) =>
          .ok (points ++ ((r :: rs).map (fun record =>
            ({ measurement := "Sleep Summary",
               time := tz_localize_to_utc tz record.startTime,
               tags := [("Device", dev), ("isMainSleep", record.isMainSleep)],
               fields := [("efficiency", record.efficiency),
                          ("minutesAfterWakeup", record.minutesAfterWakeup),
                          ("minutesAsleep", record.minutesAsleep),
                          ("minutesToFallAsleep", record.minutesToFallAsleep),
                          ("minutesInBed", record.timeInBed),
                          ("minutesAwake", record.minutesAwake),
                          ("minutesLight", (sleep_summary_minutes record.summary).1),
                          ("minutesREM", (sleep_summary_minutes record.summary).2.1),
                          ("minutesDeep", (sleep_summary_minutes record.summary).2.2)] } : Point)
            :: (record.levelsData.map (fun sleep_stage =>
                 ({ measurement := "Sleep Levels",
                    time := tz_localize_to_utc tz sleep_stage.dateTime,
                    tags := [("Device", dev), ("isMainSleep", record.isMainSleep)],
                    fields := [("level", sleep_level_mapping sleep_stage.level),
                               ("duration_seconds", sleep_stage.seconds)] } : Point)))
            ++ [({ measurement := "Sleep Levels",
                   time := tz_localize_to_utc tz record.endTime,
                   tags := [("Device", dev), ("isMainSleep", record.isMainSleep)],
                   fields := [("level", sleep_level_mapping SleepLevel.wake)],
                   noneFields := ["duration_seconds"] } : Point)])).flatten)
      | _ => .ok points

/-- One `{dateTime, value}` entry of a daily activity time series of
`get_daily_data_limit_365d`; `dateTime` is the naive midnight instant. -/
structure ActivityDailyEntry where
  dateTime : Int
  value : Int
deriving Repr, DecidableEq

/-- The source's `activity_minutes_list`. -/
def activity_minutes_list : List String :=
  ["minutesSedentary", "minutesLightlyActive", "minutesFairlyActive", "minutesVeryActive"]

/-- The source's `activity_others_list`. -/
def activity_others_list : List String :=
  ["distance", "calories", "steps"]

/-- The first loop of `get_daily_data_limit_365d`: one request per
activity type (scripted by `res`, keyed by the type name; an outer
`none` is an absent result, on which `.get` raises `AttributeError`).
A present-but-falsy data list is logged and skipped; otherwise one
"Activity Minutes" point per entry is appended, its field keyed by the
activity type and its time localized from the configured timezone. -/
def activity_minutes_go (tz : Timezone) (dev : String)
    (res : String → Option (Option (List ActivityDailyEntry))) :
    List String → List Point → Except PyExc (List Point)
  | [], points => .ok points
  | activity_type :: rest, points =>
      match res activity_type with
      | none => .error .attributeError
      | some dataOpt =>
          let points1 :=
            match dataOpt with
            | some (d :: ds) => points ++ ((d :: ds).map fun data =>
                ({ measurement := "Activity Minutes",
                   time := tz_localize_to_utc tz data.dateTime,
                   tags := [("Device", dev)],
                   fields := [(activity_type, data.value)] } : Point))
            | _ => points
          activity_minutes_go tz dev res rest points1

/-- The second loop of `get_daily_data_limit_365d`, over
`activity_others_list`, threading the `activity_name` local: it is
assigned only inside the data loop (`"Total Steps"` for `"steps"`), so
when the first iteration's data list is falsy, the `else` branch's
f-string reads the unbound local and raises `UnboundLocalError`; on a
later iteration it logs the stale name and skips. -/
def activity_others_go (tz : Timezone) (dev : String)
    (res : String → Option (Option (List ActivityDailyEntry))) :
    List String → Option String → List Point → Except PyExc (List Point × Option String)
  | [], activity_name, points => .ok (points, activity_name)
  | activity_type :: rest, activity_name, points =>
      match res activity_type with
      | none => .error .attributeError
      | some dataOpt =>
          match dataOpt with
          | some (d :: ds) =>
              let aname := if activity_type == "steps" then "Total Steps" else activity_type
              activity_others_go tz dev res rest (some aname)
                (points ++ ((d :: ds).map fun data =>
                  ({ measurement := aname,
                     time := tz_localize_to_utc tz data.dateTime,
                     tags := [("Device", dev)],
                     fields := [("value", data.value)] } : Point)))
          | _ =>
              match activity_name with
              | none => .error .unboundLocal
              | some _ => activity_others_go tz dev res rest activity_name points

/-- The `data["value"]` of one `activities-heart` entry: the four
`heartRateZones` minutes the source reads at positions 0..3, and the
optional `restingHeartRate` (guarded by an `in` check). -/
structure HeartRateZonesValue where
  normalMinutes : Int
  fatBurnMinutes : Int
  cardioMinutes : Int
  peakMinutes : Int
  restingHeartRate : Option Int
deriving Repr, DecidableEq

/-- One entry of the `activities-heart` list; `dateTime` is the naive
midnight instant. -/
structure HrZonesEntry where
  dateTime : Int
  value : HeartRateZonesValue
deriving Repr, DecidableEq

/-- The heart-zones section of `get_daily_data_limit_365d`.  The source
subscripts the response (`res_activities["activities-heart"]`), so an
absent result raises `TypeError` (`None` is not subscriptable); the key
itself is modelled as present.  A falsy list is logged and skipped;
otherwise each entry appends one "HR zones" point and, when
`restingHeartRate` is present, one "RestingHR" point at the same
localized time. -/
def hr_zones_points (tz : Timezone) (dev : String)
    (res_activities : Option (List HrZonesEntry)) (points : List Point) :
    Except PyExc (List Point) :=
  match res_activities with
  | none => .error .typeError
  | some HR_zones_data_list =>
      match HR_zones_data_list with
      | d :: ds =>
          .ok (points ++ ((d :: ds).map (fun data =>
            ({ measurement := "HR zones",
               time := tz_localize_to_utc tz data.dateTime,
               tags := [("Device", dev)],
               fields := [("Normal", data.value.normalMinutes),
                          ("Fat Burn", data.value.fatBurnMinutes),
                          ("Cardio", data.value.cardioMinutes),
                          ("Peak", data.value.peakMinutes)] } : Point)
            :: (match data.value.restingHeartRate with
                | some rhr =>
                    [({ measurement := "RestingHR",
                        time := tz_localize_to_utc tz data.dateTime,
                        tags := [("Device", dev)],
                        fields := [("value", rhr)] } : Point)]
                | none => []))).flatten)
      | [] => .ok points

/-- `get_daily_data_limit_365d(start_date, end_date)`: the two activity
loops followed by the heart-zones section, in source order. -/
def get_daily_data_limit_365d (tz : Timezone) (dev : String)
    (res_minutes res_others : String → Option (Option (List ActivityDailyEntry)))
    (res_activities : Option (List HrZonesEntry))
    (points : List Point) : Except PyExc (List Point) :=
  match activity_minutes_go tz dev res_minutes activity_minutes_list points with
  | .error e => .error e
  | .ok points1 =>
      match activity_others_go tz dev res_others activity_others_list none points1 with
      | .error e => .error e
      | .ok (points2, _) => hr_zones_points tz dev res_activities points2

/-- One entry of the daily-SPO2 response of `get_daily_data_limit_none`;
`dateTime` is the naive midnight instant. -/
structure Spo2DailyEntry where
  dateTime : Int
  avg : Int
  max : Int
  min : Int
deriving Repr, DecidableEq

/-- `get_daily_data_limit_none(start_date, end_date)`.  The response
itself is the data list and is only tested for truthiness, so an absent
result (`none`) or an empty list is logged and skipped without
crashing; otherwise one "SPO2" point per entry is appended at the
localized midnight `dateTime`. -/
def get_daily_data_limit_none (tz : Timezone) (dev : String)
    (data_list : Option (List Spo2DailyEntry)) (points : List Point) :
    List Point × Bool :=
  match data_list with
  | some (d :: ds) =>
      (points ++ ((d :: ds).map fun data =>
        ({ measurement := "SPO2",
           time := tz_localize_to_utc tz data.dateTime,
           tags := [("Device", dev)],
           fields := [("avg", data.avg), ("max", data.max), ("min", data.min)] } : Point)), true)
  | _ => (points, false)

/-- A scripted per-name response table: `respOf l name` is the scripted
result of the request issued for `name` (`none` for unlisted names). -/
def respOf {α : Type} (l : List (String × α)) : String → Option α :=
  fun name => (l.find? (fun p => p.1 == name)).map Prod.snd

/-- One activity record of the `activities/list.json` response.  The six
numeric keys are optional, matching the `if key in activity` checks. -/
structure Activity where
  startTime : IsoTime
  activityName : String
  activeDuration : Option Int
  averageHeartRate : Option Int
  calories : Option Int
  duration : Option Int
  distance : Option Int
  steps : Option Int
deriving Repr, DecidableEq

/-- The `activities/list.json` response body. -/
structure ActivitiesResponse where
  activities : List Activity
deriving Repr, DecidableEq

/-- The `fields` dict built key by key by `fetch_latest_activities`. -/
def activity_fields (a : Activity) : List (String × Int) :=
  (match a.activeDuration with | some v => [("ActiveDuration", v)] | none => [])
  ++ (match a.averageHeartRate with | some v => [("AverageHeartRate", v)] | none => [])
  ++ (match a.calories with | some v => [("calories", v)] | none => [])
  ++ (match a.duration with | some v => [("duration", v)] | none => [])
  ++ (match a.distance with | some v => [("distance", v)] | none => [])
  ++ (match a.steps with | some v => [("steps", v)] | none => [])

/-- `fetch_latest_activities(end_date)`.  `resp` is the
`fitbit_data_request` result (`none`: absent, which is falsy, so logged
and skipped — this handler does not crash on an absent result).  Each
point's time is `datetime.fromisoformat(activity['startTime'].strip("Z"))
.astimezone(pytz.utc)`: the conversion uses the offset embedded in the
string, or the system timezone for a naive timestamp; `self.timezone` is
not consulted. -/
def fetch_latest_activities (systemTz : Timezone) (resp : Option ActivitiesResponse)
    (points : List Point) : List Point × Bool :=
  match resp with
  | none => (points, false)
  | some r =>
      (points ++ r.activities.map (fun activity =>
        { measurement := "Activity Records",
          time := astimezone_utc systemTz activity.startTime,
          tags := [("ActivityName", activity.activityName)],
          fields := activity_fields activity }), true)

/-- The body of the `while` loop of `yield_dates_with_gap`, entered with
`start_index` already advanced to `s` (the source initializes
`start_index = -gap` and adds `gap` on entering the body, so the first
iteration runs with `start_index = 0`; for a non-empty list the entry
condition `-gap < n - 1` always holds when `gap ≥ 1`).  Each iteration
clamps `end_index = min(start_index + gap, n - 1)`, breaks when
`start_index > n - 1`, yields the index pair, and loops again while
`start_index < n - 1`.  `fuel` bounds the recursion; every theorem below
supplies enough fuel for the run to finish exactly as the source does
(with `gap = 0` the source loop does not terminate, so the model is only
used with `0 < gap`). -/
def ydwg_go (n gap : Nat) : Nat → Nat → List (Nat × Nat)
  | 0, _start_index => []
  | fuel + 1, start_index =>
      if start_index ≤ n - 1 then
        (start_index, min (start_index + gap) (n - 1)) ::
          (if start_index < n - 1 then ydwg_go n gap fuel (start_index + gap) else [])
      else []

/-- `yield_dates_with_gap(date_list, gap)`: the produced `(start_date,
end_date)` pairs.  For an empty list the source loop yields nothing
(either the entry condition fails or the first iteration breaks). -/
def yield_dates_with_gap (date_list : List String) (gap : Nat) : List (String × String) :=
  match date_list with
  | [] => []
  | _ :: _ =>
      (ydwg_go date_list.length gap (date_list.length + 1) 0).map
        fun p => (date_list.getD p.1 "", date_list.getD p.2 "")

/-- The ten dates 2024-01-01 .. 2024-01-10 of the partitioning scenario. -/
def jan2024 : List String :=
  ["2024-01-01", "2024-01-02", "2024-01-03", "2024-01-04", "2024-01-05",
   "2024-01-06", "2024-01-07", "2024-01-08", "2024-01-09", "2024-01-10"]

/-- A sample point for concrete flush runs. -/
def samplePoint : Point :=
  { measurement := "DeviceBatteryLevel", time := 0, fields := [("value", 55)], tags := [] }

/-- A sample activity whose `startTime` is naive (no embedded offset). -/
def cxActivity : Activity :=
  { startTime := { naive := 1000, utcOffset := none }, activityName := "Run",
    activeDuration := none, averageHeartRate := none, calories := none,
    duration := none, distance := none, steps := none }

/-! ## Theorems -/

/-- Helper: if every scripted outcome in the remaining window is one the
loop retries on, the call ends by exhausting the attempts: it returns
`None` when some attempt received an HTTP response (so the final log line
can read `response.text`), and raises `UnboundLocalError` otherwise. -/
theorem fdr_go_result_retryable {β : Type} (script : Nat → Attempt β) (tokens : Nat → String) :
    ∀ (fuel : Nat), ∀ (attempt : Nat) (hdrs : Option String) (rb : Bool) (sl : Nat)
      (us : List String),
    (∀ i, i < fuel → retryable (script (attempt + i)) = true) →
    (fdr_go script tokens fuel attempt hdrs rb sl us).result =
      (if rb || anyRespIn script attempt fuel then Except.ok none
       else Except.error PyExc.unboundLocal) := by
  intro fuel
  induction fuel with
  | zero =>
      intro attempt hdrs rb sl us _h
      cases rb <;> simp [fdr_go, anyRespIn]
  | succ fuel ih =>
      intro attempt hdrs rb sl us h
      have htail : ∀ i, i < fuel → retryable (script (attempt + 1 + i)) = true := by
        intro i hi
        have h2 := h (i + 1) (by omega)
        have e : attempt + (i + 1) = attempt + 1 + i := by omega
        rwa [e] at h2
      cases hs : script attempt with
      | connError =>
          simp only [fdr_go, hs]
          rw [ih _ _ _ _ _ htail]
          simp [anyRespIn, hs, isResp]
      | resp status ra body =>
          have h0 : retryable (Attempt.resp status ra body : Attempt β) = true := by
            have h2 := h 0 (by omega)
            rwa [Nat.add_zero, hs] at h2
          have hstat : status = 429 ∨ status = 401 ∨ status = 500 ∨ status = 502 ∨
              status = 503 ∨ status = 504 := by
            simpa [retryable, or_assoc] using h0
          rcases hstat with h1 | h1 | h1 | h1 | h1 | h1 <;> subst h1 <;>
            simp only [fdr_go, hs] <;>
            norm_num <;>
            rw [ih _ _ _ _ _ htail] <;>
            simp [anyRespIn, hs, isResp]

/-- Claim C3 (counterexample): a sequence of responses containing no
success within `MAX_RETRIES` attempts on which `fitbit_data_request`
raises instead of returning an absent result.  When every attempt raises
`ConnectionError`, the `response` local is never assigned, and the final
`logging.error(f"... {response.text}")` raises `UnboundLocalError`. -/
theorem fitbit_data_request_all_connerr_raises :
    (fitbit_data_request (fun _ => (Attempt.connError : Attempt Nat)) (fun _ => "tok")
        none).result = Except.error PyExc.unboundLocal := rfl

/-- Claim C3 (amended): for every sequence of responses in which each of
the `MAX_RETRIES` attempts receives a retryable outcome (429 / 401 /
500 / 502 / 503 / 504 / connection error) and at least one attempt
receives an HTTP response, `fitbit_data_request` exhausts its retries,
returns an absent result (`None`) and does not raise. -/
theorem fitbit_data_request_exhausted_absent {β : Type}
    (script : Nat → Attempt β) (tokens : Nat → String)
    (hretry : ∀ i, i < MAX_RETRIES → retryable (script i) = true)
    (hresp : anyRespIn script 0 MAX_RETRIES = true) :
    (fitbit_data_request script tokens none).result = Except.ok none := by
  unfold fitbit_data_request
  rw [fdr_go_result_retryable script tokens MAX_RETRIES 0 none false 0 []
    (fun i hi => by simpa using hretry i hi)]
  simp [hresp]

/-- Witness for C3's amended theorem: three consecutive 500s with
max-attempts 3 end in an absent result. -/
theorem fitbit_data_request_exhausted_absent_witness :
    (fitbit_data_request (fun _ => Attempt.resp 500 0 (0 : Nat)) (fun _ => "tok")
        none).result = Except.ok none :=
  fitbit_data_request_exhausted_absent _ _ (by decide) (by decide)

/-- Claim C4 (counterexample): the access token is NOT re-obtained on the
attempt after a 401.  With a token store returning `"first-token"` for a
call at attempt 0 and `"fresh-token"` for any later call, every attempt
of an all-401 run still sends `"first-token"`: the `headers` local,
rebound to the truthy built dict on attempt 0, short-circuits
`headers or {...}` on retries. -/
theorem authorization_header_not_refetched_cx :
    (fitbit_data_request (fun _ => Attempt.resp 401 0 (0 : Nat))
        (fun i => if i = 0 then "first-token" else "fresh-token") none).tokensUsed
      = ["first-token", "first-token", "first-token"]
    ∧ (fun i : Nat => if i = 0 then "first-token" else "fresh-token") 1 = "fresh-token"
    ∧ ("first-token" : String) ≠ "fresh-token" :=
  ⟨rfl, rfl, by decide⟩

/-- Claim C4 (amended): on a 401 response `fitbit_data_request` sleeps
and retries, but the Authorization header built on the first attempt is
reused unchanged on every retry: `get_access_token` is consulted only
while the `headers` local is still falsy, i.e. only on the first
attempt, so every attempt carries `tokens 0`. -/
theorem authorization_header_reused_on_retry (b : Nat) (tokens : Nat → String) :
    (fitbit_data_request (scriptOf [Attempt.resp 401 0 0, Attempt.resp 200 0 b]
        Attempt.connError) tokens none).tokensUsed = [tokens 0, tokens 0]
    ∧ (fitbit_data_request (scriptOf [Attempt.resp 401 0 0, Attempt.resp 200 0 b]
        Attempt.connError) tokens none).result = Except.ok (some b)
    ∧ (fitbit_data_request (fun _ => Attempt.resp 401 0 (0 : Nat)) tokens none).tokensUsed
        = [tokens 0, tokens 0, tokens 0] :=
  ⟨rfl, rfl, rfl⟩

/-- Claim C7 (counterexample): 501 is a 5xx status, but the source only
retries `[500, 502, 503, 504]`; a 501 falls into the `else` branch whose
`raise_for_status()` raises immediately, with no sleep and no retry. -/
theorem fdr_501_fatal_cx :
    (fitbit_data_request (fun _ => Attempt.resp 501 0 (0 : Nat)) (fun _ => "t")
        none).result = Except.error (PyExc.httpError 501)
    ∧ (fitbit_data_request (fun _ => Attempt.resp 501 0 (0 : Nat)) (fun _ => "t")
        none).totalSleep = 0 :=
  ⟨rfl, rfl⟩

/-- Claim C7 (amended): a first response with status in
`[500, 502, 503, 504]` makes `fitbit_data_request` sleep 120 seconds
plus the trailing 30 and retry (here succeeding on the second attempt);
every other 5xx status (501, 505, ..., 599) aborts immediately via
`raise_for_status()` with no sleep. -/
theorem fdr_5xx_retry_spec (s ra bA bB : Nat) (tokens : Nat → String)
    (h500 : 500 ≤ s) (h599 : s ≤ 599) :
    ((fitbit_data_request (scriptOf [Attempt.resp s ra bA, Attempt.resp 200 0 bB]
        Attempt.connError) tokens none).result
      = if s ∈ ([500, 502, 503, 504] : List Nat) then Except.ok (some bB)
        else Except.error (PyExc.httpError s))
    ∧ ((fitbit_data_request (scriptOf [Attempt.resp s ra bA, Attempt.resp 200 0 bB]
        Attempt.connError) tokens none).totalSleep
      = if s ∈ ([500, 502, 503, 504] : List Nat) then 150 else 0) := by
  interval_cases s <;> exact ⟨rfl, rfl⟩

/-- Witness for C7's amended theorem at the retried status 500 and the
fatal status 501. -/
theorem fdr_5xx_retry_spec_witness :
    (fitbit_data_request (scriptOf [Attempt.resp 500 0 7, Attempt.resp 200 0 9]
        Attempt.connError) (fun _ => "t") none).result = Except.ok (some 9)
    ∧ (fitbit_data_request (scriptOf [Attempt.resp 501 0 7, Attempt.resp 200 0 9]
        Attempt.connError) (fun _ => "t") none).result
      = Except.error (PyExc.httpError 501) := by
  constructor
  · have h := (fdr_5xx_retry_spec 500 0 7 9 (fun _ => "t") (by decide) (by decide)).1
    simpa using h
  · have h := (fdr_5xx_retry_spec 501 0 7 9 (fun _ => "t") (by decide) (by decide)).1
    simpa using h

/-- Claim C9: a 429 with `Retry-After = r` sleeps `r + 15` seconds in the
rate-limit branch plus the trailing 30 before the next attempt; the
trailing 30-second sleep follows every retry branch (429, 401, the
retried 5xx statuses, and connection failure); and the scripted sequence
[429 with Retry-After 5, 200] sleeps at least 20 seconds in total before
returning the 200 body. -/
theorem fdr_sleep_pacing (r b : Nat) (tokens : Nat → String) :
    ((fitbit_data_request (scriptOf [Attempt.resp 429 r 0, Attempt.resp 200 0 b]
        Attempt.connError) tokens none).result = Except.ok (some b))
    ∧ ((fitbit_data_request (scriptOf [Attempt.resp 429 r 0, Attempt.resp 200 0 b]
        Attempt.connError) tokens none).totalSleep = (r + 15) + 30)
    ∧ ((fitbit_data_request (scriptOf [Attempt.resp 401 0 0, Attempt.resp 200 0 b]
        Attempt.connError) tokens none).totalSleep = 30 + 30)
    ∧ ((fitbit_data_request (scriptOf [Attempt.resp 500 0 0, Attempt.resp 200 0 b]
        Attempt.connError) tokens none).totalSleep = 120 + 30)
    ∧ ((fitbit_data_request (scriptOf [Attempt.resp 502 0 0, Attempt.resp 200 0 b]
        Attempt.connError) tokens none).totalSleep = 120 + 30)
    ∧ ((fitbit_data_request (scriptOf [Attempt.resp 503 0 0, Attempt.resp 200 0 b]
        Attempt.connError) tokens none).totalSleep = 120 + 30)
    ∧ ((fitbit_data_request (scriptOf [Attempt.resp 504 0 0, Attempt.resp 200 0 b]
        Attempt.connError) tokens none).totalSleep = 120 + 30)
    ∧ ((fitbit_data_request (scriptOf [Attempt.connError, Attempt.resp 200 0 b]
        Attempt.connError) tokens none).totalSleep = 30)
    ∧ 20 ≤ (fitbit_data_request (scriptOf [Attempt.resp 429 5 0, Attempt.resp 200 0 b]
        Attempt.connError) tokens none).totalSleep := by
  refine ⟨rfl, ?_, rfl, rfl, rfl, rfl, rfl, rfl, ?_⟩
  · show 0 + (r + 15) + 30 = (r + 15) + 30
    omega
  · show 20 ≤ 0 + (5 + 15) + 30
    omega

/-- Claim C5: with `K > 0` buffered points, `write_points` issues exactly
one sink write of the entire buffer; on success the buffer becomes
empty, on failure the buffer still holds exactly the same points and the
error is logged; either way the call returns normally (the only sink
exception, `InfluxDBError`, is caught), so nothing propagates to the
scheduled-flush caller. -/
theorem write_points_flush_spec (points : List Point)
    (sink : List Point → Except InfluxDBErr Unit) (h : 0 < points.length) :
    write_points points sink =
      Except.ok ⟨(match sink points with | .ok _ => [] | .error _ => points),
                 [points],
                 (match sink points with | .ok _ => false | .error _ => true)⟩ := by
  unfold write_points
  rw [if_pos h]
  cases sink points <;> rfl

/-- Witness for C5 at a one-point buffer and a failing sink: the write is
attempted once, the point stays buffered, the error is logged, and the
call still returns normally. -/
theorem write_points_flush_spec_witness :
    0 < ([samplePoint] : List Point).length
    ∧ write_points [samplePoint] (fun _ => Except.error InfluxDBErr.writeFailed)
        = Except.ok ⟨[samplePoint], [[samplePoint]], true⟩ :=
  ⟨by decide,
   write_points_flush_spec [samplePoint] (fun _ => Except.error InfluxDBErr.writeFailed)
     (by decide)⟩

/-- Claim C6 (counterexample): a credential whose expiry equals the
current instant triggers zero refreshes, not the exactly one the claim
demands for "expiry ≤ now": the source tests `expiry_timestamp <
int(time.time())` strictly. -/
theorem get_access_token_boundary_cx :
    (get_access_token
        (some { access_token := "tokA", refresh_token := "tokR", expiry_timestamp := 100 })
        "p" 100 100
        { access_token := "tokB", refresh_token := "tokS", expires_in := 3600 }).refreshCalls
      = 0
    ∧ (get_access_token
        (some { access_token := "tokA", refresh_token := "tokR", expiry_timestamp := 100 })
        "p" 100 100
        { access_token := "tokB", refresh_token := "tokS", expires_in := 3600 }).result
      = Except.ok "tokA"
    ∧ (0 : Nat) ≠ 1 :=
  ⟨rfl, rfl, by decide⟩

/-- Claim C6 (amended): with a stored credential, `get_access_token`
refreshes if and only if `expiry_timestamp < now` (strictly): a strictly
past expiry triggers exactly one refresh and stores a new file whose
expiry is the refresh instant plus the issued lifetime minus 300
seconds; an expiry equal to or later than `now` triggers zero refreshes
and returns the stored token. -/
theorem get_access_token_refresh_iff_strict (f : TokenFile) (prompt : String)
    (now rnow : Int) (resp : RefreshResponse) :
    (get_access_token (some f) prompt now rnow resp).refreshCalls
        = (if f.expiry_timestamp < now then 1 else 0)
    ∧ (get_access_token (some f) prompt now rnow resp).result
        = Except.ok (if f.expiry_timestamp < now then resp.access_token else f.access_token)
    ∧ (get_access_token (some f) prompt now rnow resp).written
        = (if f.expiry_timestamp < now then
             some { access_token := resp.access_token, refresh_token := resp.refresh_token,
                    expiry_timestamp := rnow + resp.expires_in - 300 }
           else none) := by
  by_cases h : f.expiry_timestamp < now <;>
    simp [get_access_token, refresh_fitbit_token, h]

/-- Claim C10: when the token file does not exist, the
`except FileNotFoundError` branch binds only `refresh_token` (from the
prompt); the following `if expiry_timestamp < int(time.time())` then
reads the never-assigned local `expiry_timestamp` and raises
`UnboundLocalError` (a `NameError`) before any refresh exchange is
performed, for every prompted refresh token — the bootstrap path can
never return a token. -/
theorem get_access_token_bootstrap_unbound (prompt : String) (now rnow : Int)
    (resp : RefreshResponse) :
    (get_access_token none prompt now rnow resp).result = Except.error PyExc.unboundLocal
    ∧ (get_access_token none prompt now rnow resp).refreshCalls = 0
    ∧ (get_access_token none prompt now rnow resp).written = none :=
  ⟨rfl, rfl, rfl⟩

/-- Claim C1 (code bug, evaluation at the failing input): when
`fitbit_data_request` exhausts its retries and returns an absent result,
the metric handlers do not log-and-skip: `get_battery_level` subscripts
`None` (`TypeError`), and `get_daily_data_limit_30d` and the intraday
handler call `.get` on `None` (`AttributeError`); the exception escapes
the handler, so the orchestrator loop aborts instead of continuing. -/
theorem handlers_crash_on_absent_result :
    get_battery_level { offset := 0 } none [] = Except.error PyExc.typeError
    ∧ get_daily_data_limit_30d { offset := 0 } "dev" none none none none []
        = Except.error PyExc.attributeError
    ∧ get_intraday_data_limit_1d { offset := 0 } "dev" 0 [("HeartRate_Intraday", none)] []
        = Except.error PyExc.attributeError :=
  ⟨rfl, rfl, rfl⟩

/-- Claim C8 (counterexample): `fetch_latest_activities` appends a point
whose timestamp was NOT interpreted in the account's configured
timezone.  With a naive `startTime` (no embedded offset), the conversion
uses the process's system timezone (offset 3600 here); the account
timezone (offset 0) would have produced 1000, but the point carries
`1000 - 3600`. -/
theorem fetch_latest_activities_timezone_cx :
    (fetch_latest_activities { offset := 3600 }
        (some { activities := [cxActivity] }) []).1
      = [{ measurement := "Activity Records", time := 1000 - 3600,
           tags := [("ActivityName", "Run")], fields := [] }]
    ∧ ((1000 : Int) - 3600 ≠ tz_localize_to_utc { offset := 0 } 1000) :=
  ⟨rfl, by decide⟩

/-- Claim C8 (amended): every metric handler except
`fetch_latest_activities` normalizes every appended point's timestamp
from the account's configured timezone to UTC (`tz_localize_to_utc`):
the battery handler (device `lastSyncTime`), the intraday handler
(dataset times), all four sections of the 30-day handler (HRV, BR,
skin temperature, SPO2 intraday), the 100-day sleep handler (summary
`startTime`, every stage `dateTime`, and the final wake `endTime`), the
365-day handler (both activity loops and the HR-zones / RestingHR
section) and the SPO2-daily handler.  `fetch_latest_activities` does
not: it converts `startTime` by the offset embedded in the string, or
by the process's system timezone when the timestamp is naive (a
trailing `Z` having been stripped); the configured timezone is not
consulted there. -/
theorem point_timezone_normalization :
    (∀ (tz : Timezone) (d : Device) (pts : List Point),
        get_battery_level tz (some [some d]) pts
          = Except.ok (pts ++
              [{ measurement := "DeviceBatteryLevel",
                 time := tz_localize_to_utc tz d.lastSyncTime, tags := [],
                 fields := [("value", d.batteryLevel)] }], true))
    ∧ (∀ (tz : Timezone) (dev mname : String) (dateNaive : Int)
          (entries : List IntradayEntry) (pts : List Point),
        get_intraday_measurement tz dev mname dateNaive (some (some entries)) pts
          = Except.ok (if entries.isEmpty then (pts, false)
              else (pts ++ entries.map (fun e =>
                ({ measurement := mname,
                   time := tz_localize_to_utc tz (dateNaive + e.time),
                   tags := [("Device", dev)],
                   fields := [("value", e.value)] } : Point)), true)))
    ∧ (∀ (tz : Timezone) (dev : String) (h : HrvEntry) (hs : List HrvEntry)
          (b : BrEntry) (bs : List BrEntry)
          (s : TempSkinEntry) (ss : List TempSkinEntry)
          (p : Spo2Day) (ps : List Spo2Day) (pts : List Point),
        get_daily_data_limit_30d tz dev (some (some (h :: hs))) (some (some (b :: bs)))
            (some (some (s :: ss))) (some (p :: ps)) pts
          = Except.ok
              ((((pts
                ++ (h :: hs).map (fun data =>
                  ({ measurement := "HRV",
                     time := tz_localize_to_utc tz data.dateTime,
                     tags := [("Device", dev)],
                     fields := [("dailyRmssd", data.dailyRmssd),
                                ("deepRmssd", data.deepRmssd)] } : Point)))
                ++ (b :: bs).map (fun data =>
                  ({ measurement := "BreathingRate",
                     time := tz_localize_to_utc tz data.dateTime,
                     tags := [("Device", dev)],
                     fields := [("value", data.breathingRate)] } : Point)))
                ++ (s :: ss).map (fun temp_record =>
                  ({ measurement := "Skin Temperature Variation",
                     time := tz_localize_to_utc tz temp_record.dateTime,
                     tags := [("Device", dev)],
                     fields := [("RelativeValue", temp_record.nightlyRelative)] } : Point)))
                ++ ((p :: ps).map (fun days =>
                  days.minutes.map (fun record =>
                    ({ measurement := "SPO2_Intraday",
                       time := tz_localize_to_utc tz record.minute,
                       tags := [("Device", dev)],
                       fields := [("value", record.value)] } : Point)))).flatten))
    ∧ (∀ (tz : Timezone) (dev : String) (r : SleepRecord) (rs : List SleepRecord)
          (pts : List Point),
        get_daily_data_limit_100d tz dev (some (some (r :: rs))) pts
          = Except.ok (pts ++ ((r :: rs).map (fun record =>
              ({ measurement := "Sleep Summary",
                 time := tz_localize_to_utc tz record.startTime,
                 tags := [("Device", dev), ("isMainSleep", record.isMainSleep)],
                 fields := [("efficiency", record.efficiency),
                            ("minutesAfterWakeup", record.minutesAfterWakeup),
                            ("minutesAsleep", record.minutesAsleep),
                            ("minutesToFallAsleep", record.minutesToFallAsleep),
                            ("minutesInBed", record.timeInBed),
                            ("minutesAwake", record.minutesAwake),
                            ("minutesLight", (sleep_summary_minutes record.summary).1),
                            ("minutesREM", (sleep_summary_minutes record.summary).2.1),
                            ("minutesDeep", (sleep_summary_minutes record.summary).2.2)] } : Point)
              :: (record.levelsData.map (fun sleep_stage =>
                   ({ measurement := "Sleep Levels",
                      time := tz_localize_to_utc tz sleep_stage.dateTime,
                      tags := [("Device", dev), ("isMainSleep", record.isMainSleep)],
                      fields := [("level", sleep_level_mapping sleep_stage.level),
                                 ("duration_seconds", sleep_stage.seconds)] } : Point)))
              ++ [({ measurement := "Sleep Levels",
                     time := tz_localize_to_utc tz record.endTime,
                     tags := [("Device", dev), ("isMainSleep", record.isMainSleep)],
                     fields := [("level", sleep_level_mapping SleepLevel.wake)],
                     noneFields := ["duration_seconds"] } : Point)])).flatten))
    ∧ (∀ (tz : Timezone) (dev : String)
          (m1 : ActivityDailyEntry) (m1s : List ActivityDailyEntry)
          (m2 : ActivityDailyEntry) (m2s : List ActivityDailyEntry)
          (m3 : ActivityDailyEntry) (m3s : List ActivityDailyEntry)
          (m4 : ActivityDailyEntry) (m4s : List ActivityDailyEntry)
          (o1 : ActivityDailyEntry) (o1s : List ActivityDailyEntry)
          (o2 : ActivityDailyEntry) (o2s : List ActivityDailyEntry)
          (o3 : ActivityDailyEntry) (o3s : List ActivityDailyEntry)
          (z : HrZonesEntry) (zs : List HrZonesEntry) (pts : List Point),
        get_daily_data_limit_365d tz dev
            (respOf [("minutesSedentary", some (m1 :: m1s)),
                     ("minutesLightlyActive", some (m2 :: m2s)),
                     ("minutesFairlyActive", some (m3 :: m3s)),
                     ("minutesVeryActive", some (m4 :: m4s))])
            (respOf [("distance", some (o1 :: o1s)),
                     ("calories", some (o2 :: o2s)),
                     ("steps", some (o3 :: o3s))])
            (some (z :: zs)) pts
          = Except.ok
              ((((((((pts
                ++ (m1 :: m1s).map (fun data =>
                  ({ measurement := "Activity Minutes",
                     time := tz_localize_to_utc tz data.dateTime,
                     tags := [("Device", dev)],
                     fields := [("minutesSedentary", data.value)] } : Point)))
                ++ (m2 :: m2s).map (fun data =>
                  ({ measurement := "Activity Minutes",
                     time := tz_localize_to_utc tz data.dateTime,
                     tags := [("Device", dev)],
                     fields := [("minutesLightlyActive", data.value)] } : Point)))
                ++ (m3 :: m3s).map (fun data =>
                  ({ measurement := "Activity Minutes",
                     time := tz_localize_to_utc tz data.dateTime,
                     tags := [("Device", dev)],
                     fields := [("minutesFairlyActive", data.value)] } : Point)))
                ++ (m4 :: m4s).map (fun data =>
                  ({ measurement := "Activity Minutes",
                     time := tz_localize_to_utc tz data.dateTime,
                     tags := [("Device", dev)],
                     fields := [("minutesVeryActive", data.value)] } : Point)))
                ++ (o1 :: o1s).map (fun data =>
                  ({ measurement := "distance",
                     time := tz_localize_to_utc tz data.dateTime,
                     tags := [("Device", dev)],
                     fields := [("value", data.value)] } : Point)))
                ++ (o2 :: o2s).map (fun data =>
                  ({ measurement := "calories",
                     time := tz_localize_to_utc tz data.dateTime,
                     tags := [("Device", dev)],
                     fields := [("value", data.value)] } : Point)))
                ++ (o3 :: o3s).map (fun data =>
                  ({ measurement := "Total Steps",
                     time := tz_localize_to_utc tz data.dateTime,
                     tags := [("Device", dev)],
                     fields := [("value", data.value)] } : Point)))
                ++ ((z :: zs).map (fun data =>
                  ({ measurement := "HR zones",
                     time := tz_localize_to_utc tz data.dateTime,
                     tags := [("Device", dev)],
                     fields := [("Normal", data.value.normalMinutes),
                                ("Fat Burn", data.value.fatBurnMinutes),
                                ("Cardio", data.value.cardioMinutes),
                                ("Peak", data.value.peakMinutes)] } : Point)
                  :: (match data.value.restingHeartRate with
                      | some rhr =>
                          [({ measurement := "RestingHR",
                              time := tz_localize_to_utc tz data.dateTime,
                              tags := [("Device", dev)],
                              fields := [("value", rhr)] } : Point)]
                      | none => []))).flatten))
    ∧ (∀ (tz : Timezone) (dev : String) (entries : List Spo2DailyEntry)
          (pts : List Point),
        get_daily_data_limit_none tz dev (some entries) pts
          = (if entries.isEmpty then (pts, false)
             else (pts ++ entries.map (fun data =>
               ({ measurement := "SPO2",
                  time := tz_localize_to_utc tz data.dateTime,
                  tags := [("Device", dev)],
                  fields := [("avg", data.avg), ("max", data.max),
                             ("min", data.min)] } : Point)), true)))
    ∧ (∀ (systemTz : Timezone) (acts : List Activity) (pts : List Point),
        fetch_latest_activities systemTz (some { activities := acts }) pts
          = (pts ++ acts.map (fun a =>
              { measurement := "Activity Records",
                time := astimezone_utc systemTz a.startTime,
                tags := [("ActivityName", a.activityName)],
                fields := activity_fields a }), true)) := by
  refine ⟨fun tz d pts => rfl, ?_,
    fun tz dev h hs b bs s ss p ps pts => rfl,
    fun tz dev r rs pts => rfl,
    fun tz dev m1 m1s m2 m2s m3 m3s m4 m4s o1 o1s o2 o2s o3 o3s z zs pts => rfl,
    ?_, fun systemTz acts pts => rfl⟩
  · intro tz dev mname dateNaive entries pts
    cases entries <;> rfl
  · intro tz dev entries pts
    cases entries <;> rfl

/-- Helper: the loop body breaks (yields nothing) once the advanced
`start_index` exceeds the last index. -/
theorem ydwg_go_of_gt (n gap fuel s : Nat) (h : ¬ s ≤ n - 1) :
    ydwg_go n gap fuel s = [] := by
  cases fuel with
  | zero => rfl
  | succ fuel => simp [ydwg_go, h]

/-- Helper: with positive `gap` and enough fuel, the loop entered at
index `s ≤ n - 1` yields exactly the pairs for the indices
`s, s + gap, s + 2·gap, ...` that are at most `n - 1`. -/
theorem ydwg_go_eq (n gap : Nat) (hg : 0 < gap) :
    ∀ fuel s, s ≤ n - 1 → (n - 1 - s) / gap + 1 ≤ fuel →
    ydwg_go n gap fuel s =
      (List.range ((n - 1 - s) / gap + 1)).map
        (fun j => (s + j * gap, min (s + j * gap + gap) (n - 1))) := by
  intro fuel
  induction fuel with
  | zero =>
      intro s _hs hf
      exact absurd hf (Nat.not_succ_le_zero _)
  | succ fuel ih =>
      intro s hs hf
      simp only [ydwg_go]
      rw [if_pos hs]
      by_cases hlt : s < n - 1
      · rw [if_pos hlt]
        by_cases hle : s + gap ≤ n - 1
        · have hgle : gap ≤ n - 1 - s := by omega
          have hdiv : (n - 1 - s) / gap = (n - 1 - (s + gap)) / gap + 1 := by
            have harg : n - 1 - (s + gap) = n - 1 - s - gap := by omega
            rw [harg, Nat.div_eq (n - 1 - s) gap, if_pos ⟨hg, hgle⟩]
          have hf2 : (n - 1 - (s + gap)) / gap + 1 ≤ fuel := by
            rw [hdiv] at hf
            exact Nat.le_of_succ_le_succ hf
          rw [ih (s + gap) hle hf2, hdiv]
          conv_rhs => rw [List.range_succ_eq_map]
          rw [List.map_cons, List.map_map]
          congr 1
          · simp
          · refine List.map_congr_left ?_
            intro j _hj
            have h1 : s + Nat.succ j * gap = s + gap + j * gap := by
              rw [Nat.succ_mul]
              omega
            simp only [Function.comp]
            rw [h1]
        · have hdiv0 : (n - 1 - s) / gap = 0 := Nat.div_eq_of_lt (by omega)
          rw [ydwg_go_of_gt n gap fuel (s + gap) (by omega), hdiv0]
          rw [show List.range 1 = [0] from rfl]
          simp
      · rw [if_neg hlt]
        have h0 : n - 1 - s = 0 := by omega
        rw [h0, Nat.zero_div]
        rw [show List.range 1 = [0] from rfl]
        simp

/-- Claim C2 (counterexample): partitioning 2024-01-01..2024-01-10 with
span 3 yields FOUR chunks, not the three the claim lists: because the
last index 9 is itself a multiple of the span, the loop runs one more
iteration and emits the degenerate chunk (01-10, 01-10). -/
theorem yield_dates_with_gap_example_cx :
    yield_dates_with_gap jan2024 3 =
      [("2024-01-01", "2024-01-04"), ("2024-01-04", "2024-01-07"),
       ("2024-01-07", "2024-01-10"), ("2024-01-10", "2024-01-10")]
    ∧ yield_dates_with_gap jan2024 3 ≠
      [("2024-01-01", "2024-01-04"), ("2024-01-04", "2024-01-07"),
       ("2024-01-07", "2024-01-10")] :=
  ⟨rfl, by decide⟩

/-- Claim C2 (amended): for a non-empty day-indexed date list
`d[0..n-1]` and span `s ≥ 1`, `yield_dates_with_gap` produces, in
increasing order of `i`, exactly the chunks
`(d[i*s], d[min((i+1)*s, n-1)])` for every `i` with `i*s ≤ n - 1`, i.e.
for `i = 0 .. (n-1)/s` — one more (degenerate, single-day) chunk than
the claim's list whenever `n - 1` is a positive multiple of `s`.
Consecutive chunks share their boundary date, and a single-day range
yields exactly one chunk, both immediate from this shape. -/
theorem yield_dates_with_gap_chunks (date_list : List String) (gap : Nat)
    (hg : 0 < gap) (hne : date_list ≠ []) :
    yield_dates_with_gap date_list gap =
      (List.range ((date_list.length - 1) / gap + 1)).map
        (fun i => (date_list.getD (i * gap) "",
                   date_list.getD (min ((i + 1) * gap) (date_list.length - 1)) "")) := by
  cases date_list with
  | nil => exact absurd rfl hne
  | cons d ds =>
      simp only [yield_dates_with_gap]
      rw [ydwg_go_eq (d :: ds).length gap hg ((d :: ds).length + 1) 0 (Nat.zero_le _)
        (by
          rw [Nat.sub_zero]
          have h2 := Nat.div_le_self ((d :: ds).length - 1) gap
          omega)]
      rw [List.map_map, Nat.sub_zero]
      refine List.map_congr_left ?_
      intro j _hj
      simp only [Function.comp]
      rw [Nat.zero_add, Nat.succ_mul]

/-- Witness for C2's amended theorem at the scenario input: ten dates,
span 3, hence (10-1)/3 + 1 = 4 chunks. -/
theorem yield_dates_with_gap_chunks_witness :
    yield_dates_with_gap jan2024 3 =
      (List.range ((jan2024.length - 1) / 3 + 1)).map
        (fun i => (jan2024.getD (i * 3) "",
                   jan2024.getD (min ((i + 1) * 3) (jan2024.length - 1)) "")) :=
  yield_dates_with_gap_chunks jan2024 3 (by decide) (by decide)
